import Mathlib

/-
Verification of the shader-object subsystem of a GLES-on-Vulkan context
(`GLES/source/context/contextShader.cpp`): the tagged identifier namespace,
handle resolution, deferred deletion via a purge list, the lazily created
shader compiler with its rebind-all protocol, and the string/precision
query surface.

The embedding mirrors the C++ entry points of the file under study.
Collaborator methods that live outside the file (ResourceManager and
Shader internals) are modelled from the specification, each marked by a
doc comment starting with `Modelled from the spec:`.
-/

set_option autoImplicit false

namespace GLOVE

/-- Error codes recorded in the per-context last-error slot. -/
inductive GLError
  | NoError
  | InvalidEnum
  | InvalidValue
  | InvalidOperation
deriving DecidableEq, Repr

/-- Tag of a shading-namespace entry: shaders and programs share one handle space. -/
inductive ShadingObjType
  | SHADER_ID
  | PROGRAM_ID
deriving DecidableEq, Repr

/-- One namespace entry, `ShadingNamespace_t { type, arrayIndex }` in the C++. -/
structure ShadingNamespace_t where
  type : ShadingObjType
  arrayIndex : Nat
deriving DecidableEq, Repr

/-- Shader kind, `SHADER_TYPE_VERTEX` or `SHADER_TYPE_FRAGMENT`. -/
inductive ShaderType
  | VERTEX
  | FRAGMENT
deriving DecidableEq, Repr

/-- Shader entity state. Strings are byte lists without their terminating byte;
the accessors below add the terminator where the C++ getters return a
terminated heap copy. `refCount` stands for the number of live programs
holding the shader attached (owned by the program collaborator). -/
structure Shader where
  shaderType : ShaderType := ShaderType.VERTEX
  source : Option (List Nat) := none
  infoLog : Option (List Nat) := none
  compiled : Bool := false
  markForDeletion : Bool := false
  refCount : Nat := 0
  compilerRef : Option Nat := none
deriving DecidableEq, Repr

/-- Program entity, reduced to the one field the claims need: its compiler reference. -/
structure ShaderProgram where
  compilerRef : Option Nat := none
deriving DecidableEq, Repr

/-- Lookup in an association list keyed by `Nat`, first match wins
(models `std::map` access; C++ maps have unique keys). -/
def assocFind {α : Type} (k : Nat) : List (Nat × α) → Option α
  | [] => none
  | p :: rest => if p.1 = k then some p.2 else assocFind k rest

/-- Resource store state. `shadingObjects` is the handle namespace,
`shaders`/`programs` the object storages keyed by array index,
`purgeList` the holding area for deletion-marked but referenced shaders. -/
structure ResourceManager where
  shadingObjectCount : Nat
  shadingObjects : List (Nat × ShadingNamespace_t)
  shaders : List (Nat × Shader)
  programs : List (Nat × ShaderProgram)
  purgeList : List Nat
deriving DecidableEq, Repr

/-- Context state visible to the shader entry points. `shaderCompiler` holds the
identity of the current compiler instance, `nextCompilerId` the identity a
newly constructed instance would get. `shaderCompilerSupport` is the
`GL_SHADER_COMPILER` capability flag read by `GetBooleanv`. -/
structure Context where
  rm : ResourceManager
  lastError : GLError
  shaderCompiler : Option Nat
  nextCompilerId : Nat
  shaderCompilerSupport : Bool
  writeFBOInDrawState : Bool
  flushCount : Nat
deriving DecidableEq, Repr

/-- Modelled from the spec: errors are reported via a per-context last-error
slot (`Context::RecordError` is outside the file under study). -/
def recordError (c : Context) (e : GLError) : Context :=
  { c with lastError := e }

/-- Modelled from the spec: `Flush` forces pending rendering work to complete;
only its occurrence matters here, tracked by a counter. -/
def flush (c : Context) : Context :=
  { c with flushCount := c.flushCount + 1 }

/-- Modelled from the spec: `ResourceManager::GetShadingObject` returns the
namespace entry registered for a handle. -/
def lookupEntry (rm : ResourceManager) (h : Nat) : Option ShadingNamespace_t :=
  assocFind h rm.shadingObjects

/-- Modelled from the spec: `ResourceManager::ShadingObjectExists`. -/
def shadingObjectExists (rm : ResourceManager) (h : Nat) : Bool :=
  (lookupEntry rm h).isSome

/-- Modelled from the spec: `ResourceManager::GetShader` resolves a storage
index to the stored shader. -/
def getShader (rm : ResourceManager) (idx : Nat) : Option Shader :=
  assocFind idx rm.shaders

/-- Modelled from the spec: in the C++ a `Shader *` is mutated in place; here
storing the updated shader back at its index plays that role. -/
def setShader (rm : ResourceManager) (idx : Nat) (s : Shader) : ResourceManager :=
  { rm with shaders := rm.shaders.map (fun p => if p.1 = idx then (p.1, s) else p) }

/-- Modelled from the spec: `erase(handle)` removes the namespace entry and
does not itself free storage. -/
def eraseShadingObject (rm : ResourceManager) (h : Nat) : ResourceManager :=
  { rm with shadingObjects := rm.shadingObjects.filter (fun p => p.1 != h) }

/-- Modelled from the spec: `ResourceManager::DeallocateShader` releases the
shader's storage. -/
def deallocateShader (rm : ResourceManager) (idx : Nat) : ResourceManager :=
  { rm with shaders := rm.shaders.filter (fun p => p.1 != idx) }

/-- Modelled from the spec: the PurgeList is a set of shaders pending release,
so insertion of an already-held shader changes nothing. -/
def addToPurgeList (rm : ResourceManager) (idx : Nat) : ResourceManager :=
  if idx ∈ rm.purgeList then rm else { rm with purgeList := idx :: rm.purgeList }

/-- Modelled from the spec: `Shader::FreeForDeletion` is true iff the shader is
marked for deletion and no live program currently holds it attached. -/
def freeForDeletion (s : Shader) : Bool :=
  s.markForDeletion && s.refCount == 0

/-- Modelled from the spec: `Shader::GetInfoLogLength` reports the info-log
length including the terminator, `0` when no log exists. -/
def Shader.getInfoLogLength (s : Shader) : Int :=
  match s.infoLog with
  | some l => (l.length : Int) + 1
  | none => 0

/-- Modelled from the spec: `Shader::GetShaderSourceLength` reports the source
length including the terminator, `0` when no source exists. -/
def Shader.getShaderSourceLength (s : Shader) : Int :=
  match s.source with
  | some l => (l.length : Int) + 1
  | none => 0

/-- Modelled from the spec: `Shader::GetInfoLog` returns a terminated copy of
the info log, or null when no log exists. -/
def Shader.getInfoLog (s : Shader) : Option (List Nat) :=
  s.infoLog.map (fun l => l ++ [0])

/-- Modelled from the spec: `Shader::GetShaderSource` returns a terminated copy
of the source text, or null when no source exists. -/
def Shader.getSource (s : Shader) : Option (List Nat) :=
  s.source.map (fun l => l ++ [0])

/-- GLenum value of `GL_VERTEX_SHADER`. -/
def GL_VERTEX_SHADER : Int := 0x8B31

/-- GLenum value of `GL_FRAGMENT_SHADER`. -/
def GL_FRAGMENT_SHADER : Int := 0x8B30

/-- GLboolean true as a GLint. -/
def GL_TRUE : Int := 1

/-- GLboolean false as a GLint. -/
def GL_FALSE : Int := 0

/-- Context::GetShaderPtr, contextShader.cpp lines 94-111: resolve a handle to
a shader storage index; `GL_INVALID_VALUE` when the handle is zero, past the
allocated range or unregistered; `GL_INVALID_OPERATION` when the entry has a
zero array index or is not of kind SHADER. -/
def getShaderPtr (c : Context) (shader : Nat) : Context × Option Nat :=
  if shader = 0 ∨ c.rm.shadingObjectCount ≤ shader ∨ shadingObjectExists c.rm shader = false then
    (recordError c GLError.InvalidValue, none)
  else
    match lookupEntry c.rm shader with
    | none => (recordError c GLError.InvalidValue, none)
    | some shadId =>
      if shadId.arrayIndex = 0 ∨ shadId.type ≠ ShadingObjType.SHADER_ID then
        (recordError c GLError.InvalidOperation, none)
      else
        (c, some shadId.arrayIndex)

/-- Context::HasShaderCompiler, lines 307-320: reads the `GL_SHADER_COMPILER`
capability flag and records `GL_INVALID_OPERATION` when it is absent. -/
def hasShaderCompiler (c : Context) : Context × Bool :=
  if c.shaderCompilerSupport = false then
    (recordError c GLError.InvalidOperation, false)
  else
    (c, true)

/-- Context::DeleteShader, lines 64-92: silent no-op on handle zero; otherwise
resolve, mark for deletion, then either flush (when mid-draw), erase the
namespace entry and release storage (when free for deletion), or move the
shader to the purge list leaving the namespace entry intact. -/
def deleteShader (c : Context) (shader : Nat) : Context :=
  if shader = 0 then
    c
  else
    match getShaderPtr c shader with
    | (c1, none) => c1
    | (c1, some idx) =>
      match getShader c1.rm idx with
      | none => c1
      | some s =>
        let s1 := { s with markForDeletion := true }
        let c2 := { c1 with rm := setShader c1.rm idx s1 }
        if freeForDeletion s1 then
          let c3 := if c2.writeFBOInDrawState then flush c2 else c2
          { c3 with rm := deallocateShader (eraseShadingObject c3.rm shader) idx }
        else
          { c2 with rm := addToPurgeList c2.rm idx }

/-- Parameter selector of Context::GetShaderiv; `OTHER` stands for any
unrecognized `pname` value. -/
inductive ShaderivPname
  | COMPILE_STATUS
  | DELETE_STATUS
  | INFO_LOG_LENGTH
  | SHADER_SOURCE_LENGTH
  | SHADER_TYPE
  | OTHER
deriving DecidableEq, Repr

/-- Result of Context::GetShaderiv: the context after the call and the value
written through `params` (`none` when `*params` is left untouched). -/
structure ShaderivResult where
  ctx : Context
  paramsOut : Option Int
deriving DecidableEq, Repr

/-- Context::GetShaderiv, lines 113-135: resolve the handle, write the selected
attribute through `params` (recording `GL_INVALID_ENUM` on an unrecognized
`pname`), then run the trailing `HasShaderCompiler()` check of lines 132-134. -/
def getShaderiv (c : Context) (shader : Nat) (pname : ShaderivPname) : ShaderivResult :=
  match getShaderPtr c shader with
  | (c1, none) => { ctx := c1, paramsOut := none }
  | (c1, some idx) =>
    match getShader c1.rm idx with
    | none => { ctx := c1, paramsOut := none }
    | some s =>
      let step : Context × Option Int :=
        match pname with
        | ShaderivPname.COMPILE_STATUS =>
            (c1, some (if s.compiled then GL_TRUE else GL_FALSE))
        | ShaderivPname.DELETE_STATUS =>
            (c1, some (if s.markForDeletion then GL_TRUE else GL_FALSE))
        | ShaderivPname.INFO_LOG_LENGTH =>
            (c1, some s.getInfoLogLength)
        | ShaderivPname.SHADER_SOURCE_LENGTH =>
            (c1, some s.getShaderSourceLength)
        | ShaderivPname.SHADER_TYPE =>
            (c1, some (if s.shaderType = ShaderType.FRAGMENT then GL_FRAGMENT_SHADER
                       else GL_VERTEX_SHADER))
        | ShaderivPname.OTHER =>
            (recordError c1 GLError.InvalidEnum, none)
      { ctx := (hasShaderCompiler step.1).1, paramsOut := step.2 }

/-- Byte stores issued into the caller's destination buffer, in program order:
`(i, b)` records `dst[i] = b`. -/
def copyWrites (strBytes : List Nat) (returnedLen : Int) : List (Nat × Nat) :=
  if returnedLen ≠ 0 then
    (List.range returnedLen.toNat).map (fun i => (i, strBytes.getD i 0)) ++
      [(returnedLen.toNat, 0)]
  else
    [(0, strBytes.getD 0 0), (0, 0)]

/-- Result of a string query: the context after the call, the value written
through `length` (`none` when the output is left untouched), and the byte
stores issued into the destination buffer. -/
structure StringQueryResult where
  ctx : Context
  lengthOut : Option Int
  writes : List (Nat × Nat)
deriving DecidableEq, Repr

/-- Context::GetShaderInfoLog, lines 137-177: reject a negative `bufsize`,
resolve the handle, then either run the copy of lines 154-171 (when a log
exists) or report length zero (lines 172-176). `lengthProvided` models
whether the caller passed a non-null `length` pointer. -/
def getShaderInfoLog (c : Context) (shader : Nat) (bufsize : Int)
    (lengthProvided : Bool) : StringQueryResult :=
  if bufsize < 0 then
    { ctx := recordError c GLError.InvalidValue, lengthOut := none, writes := [] }
  else
    match getShaderPtr c shader with
    | (c1, none) => { ctx := c1, lengthOut := none, writes := [] }
    | (c1, some idx) =>
      match getShader c1.rm idx with
      | none => { ctx := c1, lengthOut := none, writes := [] }
      | some s =>
        match s.getInfoLog with
        | some logBytes =>
          let len : Int := s.getInfoLogLength
          let returnedLen : Int := max (min bufsize len - 1) 0
          { ctx := c1,
            lengthOut := if lengthProvided then some returnedLen else none,
            writes := copyWrites logBytes returnedLen }
        | none =>
          { ctx := c1,
            lengthOut := if lengthProvided then some 0 else none,
            writes := [] }

/-- Context::GetShaderSource, lines 231-268: same shape as the info-log query
except that when no source exists the function returns immediately (line
248) without touching the `length` output. -/
def getShaderSource (c : Context) (shader : Nat) (bufsize : Int)
    (lengthProvided : Bool) : StringQueryResult :=
  if bufsize < 0 then
    { ctx := recordError c GLError.InvalidValue, lengthOut := none, writes := [] }
  else
    match getShaderPtr c shader with
    | (c1, none) => { ctx := c1, lengthOut := none, writes := [] }
    | (c1, some idx) =>
      match getShader c1.rm idx with
      | none => { ctx := c1, lengthOut := none, writes := [] }
      | some s =>
        match s.getSource with
        | none => { ctx := c1, lengthOut := none, writes := [] }
        | some srcBytes =>
          let len : Int := s.getShaderSourceLength
          let returnedLen : Int := max (min bufsize len - 1) 0
          { ctx := c1,
            lengthOut := if lengthProvided then some returnedLen else none,
            writes := copyWrites srcBytes returnedLen }

/-- Floor of the base-2 logarithm, by fuel recursion so that it evaluates by
kernel reduction; `floorLog2 n = floor(log2 n)` for `n ≥ 1`. -/
def floorLog2Aux : Nat → Nat → Nat
  | 0, _ => 0
  | fuel + 1, n => if n < 2 then 0 else floorLog2Aux fuel (n / 2) + 1

/-- Floor of the base-2 logarithm of a positive natural number. -/
def floorLog2 (n : Nat) : Nat := floorLog2Aux n n

/-- Exact integer value of `std::numeric_limits<float>::max()`:
`(2^24 - 1) * 2^104`. -/
def floatMaxVal : Nat := (2 ^ 24 - 1) * 2 ^ 104

/-- `-log2(std::numeric_limits<float>::epsilon())` where the epsilon is
`2^-23`, hence this is `floor(log2(2^23)) = 23`. -/
def floatEpsNegLog2 : Nat := floorLog2 (2 ^ 23)

/-- `std::numeric_limits<short>::max()`. -/
def shortMaxVal : Nat := 2 ^ 15 - 1

/-- `std::numeric_limits<int16_t>::max()`. -/
def int16MaxVal : Nat := 2 ^ 15 - 1

/-- `std::numeric_limits<int32_t>::max()`. -/
def int32MaxVal : Nat := 2 ^ 31 - 1

/-- Precision-type selector of Context::GetShaderPrecisionFormat; `OTHER`
stands for any unrecognized value. -/
inductive PrecisionType
  | LOW_FLOAT
  | MEDIUM_FLOAT
  | HIGH_FLOAT
  | LOW_INT
  | MEDIUM_INT
  | HIGH_INT
  | OTHER
deriving DecidableEq, Repr

/-- Result of Context::GetShaderPrecisionFormat: the context after the call and
the values written through `range[0]`, `range[1]` and `precision` (`none`
when an output is left unwritten). -/
structure PrecisionFormatResult where
  ctx : Context
  range0 : Option Int
  range1 : Option Int
  precisionOut : Option Int
deriving DecidableEq, Repr

/-- Context::GetShaderPrecisionFormat, lines 179-229: capability gate first,
then shader-type validation, then ranges and precisions computed from the
numeric-type limits of float, short, int16_t and int32_t. -/
def getShaderPrecisionFormat (c : Context) (shadertype : Int)
    (precisiontype : PrecisionType) : PrecisionFormatResult :=
  match hasShaderCompiler c with
  | (c1, false) => { ctx := c1, range0 := none, range1 := none, precisionOut := none }
  | (c1, true) =>
    if shadertype ≠ GL_VERTEX_SHADER ∧ shadertype ≠ GL_FRAGMENT_SHADER then
      { ctx := recordError c1 GLError.InvalidEnum,
        range0 := none, range1 := none, precisionOut := none }
    else
      match precisiontype with
      | PrecisionType.LOW_FLOAT =>
        { ctx := c1, range0 := some (floorLog2 floatMaxVal : Int),
          range1 := some (floorLog2 floatMaxVal : Int),
          precisionOut := some (floatEpsNegLog2 : Int) }
      | PrecisionType.MEDIUM_FLOAT =>
        { ctx := c1, range0 := some (floorLog2 floatMaxVal : Int),
          range1 := some (floorLog2 floatMaxVal : Int),
          precisionOut := some (floatEpsNegLog2 : Int) }
      | PrecisionType.HIGH_FLOAT =>
        { ctx := c1, range0 := some (floorLog2 floatMaxVal : Int),
          range1 := some (floorLog2 floatMaxVal : Int),
          precisionOut := some (floatEpsNegLog2 : Int) }
      | PrecisionType.LOW_INT =>
        { ctx := c1, range0 := some (floorLog2 shortMaxVal : Int),
          range1 := some (floorLog2 shortMaxVal : Int), precisionOut := some 0 }
      | PrecisionType.MEDIUM_INT =>
        { ctx := c1, range0 := some (floorLog2 int16MaxVal : Int),
          range1 := some (floorLog2 int16MaxVal : Int), precisionOut := some 0 }
      | PrecisionType.HIGH_INT =>
        { ctx := c1, range0 := some (floorLog2 int32MaxVal : Int),
          range1 := some (floorLog2 int32MaxVal : Int), precisionOut := some 0 }
      | PrecisionType.OTHER =>
        { ctx := recordError c1 GLError.InvalidEnum,
          range0 := none, range1 := none, precisionOut := none }

/-- Modelled from the spec: `ResourceManager::IsShadingObject(handle, kind)` is
true iff the handle resolves with the given kind — nonzero, inside the
allocated range, registered with a nonzero storage index and the matching
kind; it records no error. -/
def isShadingObject (rm : ResourceManager) (h : Nat) (t : ShadingObjType) : Bool :=
  if h = 0 ∨ rm.shadingObjectCount ≤ h then
    false
  else
    match lookupEntry rm h with
    | none => false
    | some e => e.arrayIndex != 0 && e.type == t

/-- Context::IsShader, lines 270-276: pure delegation to the store's
tagged-membership query; no error is ever recorded. -/
def isShader (c : Context) (shader : Nat) : Context × Bool :=
  (c, isShadingObject c.rm shader ShadingObjType.SHADER_ID)

/-- Shader::SetShaderCompiler as used by the rebind loop. -/
def Shader.setShaderCompiler (s : Shader) (cid : Nat) : Shader :=
  { s with compilerRef := some cid }

/-- ShaderProgram::SetShaderCompiler as used by the rebind loop. -/
def ShaderProgram.setShaderCompiler (p : ShaderProgram) (cid : Nat) : ShaderProgram :=
  { p with compilerRef := some cid }

/-- Context::CreateShaderCompiler, lines 337-357: when no compiler instance
exists, construct one and rebind every live shader and shader program in
the resource store to it; when one exists, do nothing. -/
def createShaderCompiler (c : Context) : Context :=
  match c.shaderCompiler with
  | some _ => c
  | none =>
    let newId := c.nextCompilerId
    { c with
      shaderCompiler := some newId,
      nextCompilerId := newId + 1,
      rm := { c.rm with
        shaders := c.rm.shaders.map (fun p => (p.1, p.2.setShaderCompiler newId)),
        programs := c.rm.programs.map (fun p => (p.1, p.2.setShaderCompiler newId)) } }

/-- Observable state named by the deletion claims: namespace contents, shader
storage (carrying the per-shader flags), purge list, and the allocated
range bound. -/
def observable (c : Context) :
    List (Nat × ShadingNamespace_t) × List (Nat × Shader) × List Nat × Nat :=
  (c.rm.shadingObjects, c.rm.shaders, c.rm.purgeList, c.rm.shadingObjectCount)

/-- Final contents of the destination buffer after the recorded byte stores are
applied in program order on top of an arbitrary initial buffer. -/
def finalBuf (writes : List (Nat × Nat)) (init : Nat → Nat) : Nat → Nat :=
  writes.foldl (fun buf w => fun i => if i = w.1 then w.2 else buf i) init

/-- Distinct buffer indices touched by the recorded byte stores. -/
def writtenIndices (writes : List (Nat × Nat)) : List Nat :=
  (writes.map Prod.fst).dedup

/-- Concrete shader used by the witnesses: one attached source byte pair, a
one-byte info log, and one live program holding it. -/
def shaderStd : Shader :=
  { shaderType := ShaderType.VERTEX, source := some [118, 111], infoLog := some [65],
    compiled := false, markForDeletion := false, refCount := 1, compilerRef := none }

/-- Concrete context used by the witnesses: handle 1 is a shader, handle 2 a
program, compiler support present but no compiler instance yet. -/
def ctxStd : Context :=
  { rm := { shadingObjectCount := 3,
            shadingObjects := [(1, { type := ShadingObjType.SHADER_ID, arrayIndex := 1 }),
                               (2, { type := ShadingObjType.PROGRAM_ID, arrayIndex := 2 })],
            shaders := [(1, shaderStd)],
            programs := [(2, { compilerRef := none })],
            purgeList := [] },
    lastError := GLError.NoError, shaderCompiler := none, nextCompilerId := 0,
    shaderCompilerSupport := true, writeFBOInDrawState := false, flushCount := 0 }

/-- Variant of `ctxStd` whose shader has neither an info log nor a source. -/
def ctxNoStrings : Context :=
  { ctxStd with rm := { ctxStd.rm with
      shaders := [(1, { shaderStd with source := none, infoLog := none })] } }

/-- Variant of `ctxStd` whose shader has an empty info log and an empty source
(true terminated length 1). -/
def ctxEmptyStrings : Context :=
  { ctxStd with rm := { ctxStd.rm with
      shaders := [(1, { shaderStd with source := some [], infoLog := some [] })] } }

/-- Variant of `ctxStd` without shader-compiler support. -/
def ctxNoCompiler : Context :=
  { ctxStd with shaderCompilerSupport := false }

lemma shadingObjectExists_false_iff (rm : ResourceManager) (h : Nat) :
    shadingObjectExists rm h = false ↔ lookupEntry rm h = none := by
  cases hl : lookupEntry rm h <;> simp [shadingObjectExists, hl]

lemma getShaderPtr_invalidValue (c : Context) (h : Nat)
    (hc : h = 0 ∨ c.rm.shadingObjectCount ≤ h ∨ lookupEntry c.rm h = none) :
    getShaderPtr c h = (recordError c GLError.InvalidValue, none) := by
  unfold getShaderPtr
  rw [if_pos]
  rcases hc with h1 | h2 | h3
  · exact Or.inl h1
  · exact Or.inr (Or.inl h2)
  · exact Or.inr (Or.inr ((shadingObjectExists_false_iff _ _).mpr h3))

lemma getShaderPtr_invalidOp (c : Context) (h : Nat) (e : ShadingNamespace_t)
    (hl : lookupEntry c.rm h = some e) (h0 : h ≠ 0)
    (hcnt : h < c.rm.shadingObjectCount)
    (hbad : e.arrayIndex = 0 ∨ e.type ≠ ShadingObjType.SHADER_ID) :
    getShaderPtr c h = (recordError c GLError.InvalidOperation, none) := by
  have hex : shadingObjectExists c.rm h = true := by simp [shadingObjectExists, hl]
  have hnc : ¬(h = 0 ∨ c.rm.shadingObjectCount ≤ h ∨
      shadingObjectExists c.rm h = false) := by
    rintro (h1 | h2 | h3)
    · exact h0 h1
    · omega
    · simp [hex] at h3
  simp only [getShaderPtr, if_neg hnc, hl, if_pos hbad]

lemma getShaderPtr_success (c : Context) (h : Nat) (e : ShadingNamespace_t)
    (hl : lookupEntry c.rm h = some e) (h0 : h ≠ 0)
    (hcnt : h < c.rm.shadingObjectCount)
    (hidx : e.arrayIndex ≠ 0) (hty : e.type = ShadingObjType.SHADER_ID) :
    getShaderPtr c h = (c, some e.arrayIndex) := by
  have hex : shadingObjectExists c.rm h = true := by simp [shadingObjectExists, hl]
  have hnc : ¬(h = 0 ∨ c.rm.shadingObjectCount ≤ h ∨
      shadingObjectExists c.rm h = false) := by
    rintro (h1 | h2 | h3)
    · exact h0 h1
    · omega
    · simp [hex] at h3
  have hnb : ¬(e.arrayIndex = 0 ∨ e.type ≠ ShadingObjType.SHADER_ID) := by
    rintro (h1 | h2)
    · exact hidx h1
    · exact h2 hty
  simp only [getShaderPtr, if_neg hnc, hl, if_neg hnb]

/-- C4: handle resolution fails with InvalidValue exactly when the handle is
zero, out of the allocated range, or not registered; it fails with
InvalidOperation when the handle is registered in range but its kind is not
SHADER; and any call either returns a null result or leaves the context
untouched. -/
theorem getShaderPtr_error_classification (c : Context) (h : Nat) :
    (getShaderPtr c h = (recordError c GLError.InvalidValue, none) ↔
       h = 0 ∨ c.rm.shadingObjectCount ≤ h ∨ lookupEntry c.rm h = none)
    ∧ (∀ e, lookupEntry c.rm h = some e → h ≠ 0 → h < c.rm.shadingObjectCount →
        e.type ≠ ShadingObjType.SHADER_ID →
        getShaderPtr c h = (recordError c GLError.InvalidOperation, none))
    ∧ ((getShaderPtr c h).2 = none ∨ (getShaderPtr c h).1 = c) := by
  refine ⟨⟨?_, getShaderPtr_invalidValue c h⟩, ?_, ?_⟩
  · intro hres
    by_contra hc
    push_neg at hc
    obtain ⟨h0, hcnt, hl⟩ := hc
    obtain ⟨e, he⟩ := Option.ne_none_iff_exists'.mp hl
    by_cases hbad : e.arrayIndex = 0 ∨ e.type ≠ ShadingObjType.SHADER_ID
    · rw [getShaderPtr_invalidOp c h e he h0 hcnt hbad] at hres
      have herr := congrArg (fun p => (Prod.fst p).lastError) hres
      simp [recordError] at herr
    · push_neg at hbad
      rw [getShaderPtr_success c h e he h0 hcnt hbad.1 hbad.2] at hres
      have hsnd := congrArg Prod.snd hres
      simp at hsnd
  · intro e hl h0 hcnt hty
    exact getShaderPtr_invalidOp c h e hl h0 hcnt (Or.inr hty)
  · by_cases hc : h = 0 ∨ c.rm.shadingObjectCount ≤ h ∨ lookupEntry c.rm h = none
    · left
      rw [getShaderPtr_invalidValue c h hc]
    · push_neg at hc
      obtain ⟨h0, hcnt, hl⟩ := hc
      obtain ⟨e, he⟩ := Option.ne_none_iff_exists'.mp hl
      by_cases hbad : e.arrayIndex = 0 ∨ e.type ≠ ShadingObjType.SHADER_ID
      · left
        rw [getShaderPtr_invalidOp c h e he h0 hcnt hbad]
      · right
        push_neg at hbad
        rw [getShaderPtr_success c h e he h0 hcnt hbad.1 hbad.2]

/-- Witness for C4: in the concrete context, resolving the program handle 2 as
a shader fails with InvalidOperation, and resolving handle 0 fails with
InvalidValue. -/
theorem getShaderPtr_error_classification_witness :
    getShaderPtr ctxStd 2 = (recordError ctxStd GLError.InvalidOperation, none) ∧
    getShaderPtr ctxStd 0 = (recordError ctxStd GLError.InvalidValue, none) :=
  ⟨(getShaderPtr_error_classification ctxStd 2).2.1
      { type := ShadingObjType.PROGRAM_ID, arrayIndex := 2 }
      (by decide) (by decide) (by decide) (by decide),
    (getShaderPtr_error_classification ctxStd 0).1.mpr (Or.inl rfl)⟩

/-- C10: IsShader records no error for any handle value — the context comes
back untouched — and it returns false for the zero handle, for handles at
or past the allocated range, for unregistered handles, and for handles
registered with kind PROGRAM. -/
theorem isShader_never_records_error (c : Context) (h : Nat) :
    (isShader c h).1 = c
    ∧ (h = 0 → (isShader c h).2 = false)
    ∧ (c.rm.shadingObjectCount ≤ h → (isShader c h).2 = false)
    ∧ (lookupEntry c.rm h = none → (isShader c h).2 = false)
    ∧ (∀ e, lookupEntry c.rm h = some e → e.type = ShadingObjType.PROGRAM_ID →
        (isShader c h).2 = false) := by
  refine ⟨rfl, ?_, ?_, ?_, ?_⟩
  · intro h0
    simp [isShader, isShadingObject, h0]
  · intro hcnt
    simp [isShader, isShadingObject, hcnt]
  · intro hl
    by_cases hz : h = 0 ∨ c.rm.shadingObjectCount ≤ h
    · simp [isShader, isShadingObject, if_pos hz]
    · simp [isShader, isShadingObject, if_neg hz, hl]
  · intro e hl hty
    by_cases hz : h = 0 ∨ c.rm.shadingObjectCount ≤ h
    · simp [isShader, isShadingObject, if_pos hz]
    · simp [isShader, isShadingObject, if_neg hz, hl, hty]

/-- Witness for C10: in the concrete context, IsShader leaves the context
unchanged and answers false on the zero handle and on the program handle. -/
theorem isShader_never_records_error_witness :
    (isShader ctxStd 0).1 = ctxStd ∧ (isShader ctxStd 0).2 = false ∧
    (isShader ctxStd 2).2 = false :=
  ⟨(isShader_never_records_error ctxStd 0).1,
    (isShader_never_records_error ctxStd 0).2.1 rfl,
    (isShader_never_records_error ctxStd 2).2.2.2.2
      { type := ShadingObjType.PROGRAM_ID, arrayIndex := 2 } (by decide) rfl⟩

/-- C7: when no compiler instance exists, CreateShaderCompiler installs a new
instance and rebinds the compiler reference of every shader and every
shader program already present in the resource store, preserving the set
of stored objects; when an instance already exists the call changes
nothing. -/
theorem createShaderCompiler_rebinds_all (c : Context) :
    (c.shaderCompiler = none →
       (createShaderCompiler c).shaderCompiler = some c.nextCompilerId
       ∧ (∀ p ∈ (createShaderCompiler c).rm.shaders,
            p.2.compilerRef = some c.nextCompilerId)
       ∧ (∀ p ∈ (createShaderCompiler c).rm.programs,
            p.2.compilerRef = some c.nextCompilerId)
       ∧ (createShaderCompiler c).rm.shaders.map Prod.fst = c.rm.shaders.map Prod.fst
       ∧ (createShaderCompiler c).rm.programs.map Prod.fst = c.rm.programs.map Prod.fst)
    ∧ (∀ cid, c.shaderCompiler = some cid → createShaderCompiler c = c) := by
  constructor
  · intro hnone
    refine ⟨?_, ?_, ?_, ?_, ?_⟩
    · simp [createShaderCompiler, hnone]
    · intro p hp
      simp only [createShaderCompiler, hnone, List.mem_map] at hp
      obtain ⟨q, _, hq⟩ := hp
      rw [← hq]
      simp [Shader.setShaderCompiler]
    · intro p hp
      simp only [createShaderCompiler, hnone, List.mem_map] at hp
      obtain ⟨q, _, hq⟩ := hp
      rw [← hq]
      simp [ShaderProgram.setShaderCompiler]
    · simp [createShaderCompiler, hnone, List.map_map]
    · simp [createShaderCompiler, hnone, List.map_map]
  · intro cid hsome
    simp [createShaderCompiler, hsome]

/-- Witness for C7: starting from the concrete context with no compiler, the
pre-existing shader at index 1 and the pre-existing program at index 2 end
up bound to the new instance. -/
theorem createShaderCompiler_rebinds_all_witness :
    (createShaderCompiler ctxStd).shaderCompiler = some ctxStd.nextCompilerId ∧
    ∀ p ∈ (createShaderCompiler ctxStd).rm.shaders,
      p.2.compilerRef = some ctxStd.nextCompilerId :=
  ⟨((createShaderCompiler_rebinds_all ctxStd).1 rfl).1,
    ((createShaderCompiler_rebinds_all ctxStd).1 rfl).2.1⟩

lemma finalBuf_append_single (ws : List (Nat × Nat)) (w : Nat × Nat)
    (init : Nat → Nat) (i : Nat) :
    finalBuf (ws ++ [w]) init i = if i = w.1 then w.2 else finalBuf ws init i := by
  simp [finalBuf, List.foldl_append]

lemma finalBuf_range_map (g : Nat → Nat) (m : Nat) (init : Nat → Nat) (i : Nat) :
    finalBuf ((List.range m).map (fun j => (j, g j))) init i =
      if i < m then g i else init i := by
  induction m with
  | zero => simp [finalBuf]
  | succ m ih =>
    rw [List.range_succ, List.map_append,
      show (List.map (fun j => (j, g j)) [m]) = [(m, g m)] from rfl,
      finalBuf_append_single]
    by_cases hi : i = m
    · subst hi
      simp
    · rw [if_neg hi, ih]
      by_cases h2 : i < m
      · rw [if_pos h2, if_pos (Nat.lt_succ_of_lt h2)]
      · rw [if_neg h2, if_neg (by omega)]

lemma copyWrites_contract (bytes : List Nat) (L : Int) (hL : 0 ≤ L) :
    writtenIndices (copyWrites bytes L) = List.range (L.toNat + 1)
    ∧ (∀ init i, i < L.toNat → finalBuf (copyWrites bytes L) init i = bytes.getD i 0)
    ∧ (∀ init, finalBuf (copyWrites bytes L) init L.toNat = 0) := by
  by_cases h0 : L = 0
  · subst h0
    refine ⟨?_, ?_, ?_⟩
    · have hcw0 : copyWrites bytes 0 = [(0, bytes.getD 0 0), (0, 0)] := by
        simp [copyWrites]
      rw [hcw0]
      show ([0, 0] : List Nat).dedup = List.range 1
      decide
    · intro init i hi
      simp at hi
    · intro init
      simp [copyWrites, finalBuf]
  · have hcw : copyWrites bytes L =
        (List.range L.toNat).map (fun i => (i, bytes.getD i 0)) ++ [(L.toNat, 0)] := by
      simp [copyWrites, h0]
    refine ⟨?_, ?_, ?_⟩
    · rw [hcw]
      unfold writtenIndices
      rw [List.map_append]
      have h1 : ((List.range L.toNat).map (fun i => (i, bytes.getD i 0))).map Prod.fst
          = List.range L.toNat := by
        rw [List.map_map,
          show (Prod.fst ∘ fun i => ((i, bytes.getD i 0) : Nat × Nat)) = fun i => i
            from rfl]
        exact List.map_id' _
      rw [h1, show ([(L.toNat, (0 : Nat))]).map Prod.fst = [L.toNat] from rfl,
        ← List.range_succ]
      exact List.Nodup.dedup (List.nodup_range _)
    · intro init i hi
      rw [hcw, finalBuf_append_single, if_neg (by omega), finalBuf_range_map, if_pos hi]
    · intro init
      rw [hcw, finalBuf_append_single, if_pos rfl]

/-- C1: for a valid shader whose info log (resp. source) exists and a
non-negative bufsize, the query reports
`returnedLen = max(min(bufsize, actualLength) - 1, 0)` through the length
output, touches exactly the buffer indices `0..returnedLen`, fills the
first `returnedLen` bytes with the string and places the terminating
sentinel byte right after them (at index 0 when `returnedLen` is zero). -/
theorem getShaderInfoLog_getShaderSource_contract
    (c : Context) (shader : Nat) (bufsize : Int) (idx : Nat) (s : Shader)
    (log src : List Nat)
    (hres : getShaderPtr c shader = (c, some idx))
    (hsh : getShader c.rm idx = some s)
    (hlog : s.infoLog = some log)
    (hsrc : s.source = some src)
    (hbuf : 0 ≤ bufsize) :
    ((getShaderInfoLog c shader bufsize true).lengthOut
        = some (max (min bufsize ((log.length : Int) + 1) - 1) 0)
      ∧ writtenIndices (getShaderInfoLog c shader bufsize true).writes
        = List.range ((max (min bufsize ((log.length : Int) + 1) - 1) 0).toNat + 1)
      ∧ (∀ init i, i < (max (min bufsize ((log.length : Int) + 1) - 1) 0).toNat →
          finalBuf (getShaderInfoLog c shader bufsize true).writes init i
            = (log ++ [0]).getD i 0)
      ∧ (∀ init, finalBuf (getShaderInfoLog c shader bufsize true).writes init
          (max (min bufsize ((log.length : Int) + 1) - 1) 0).toNat = 0))
    ∧ ((getShaderSource c shader bufsize true).lengthOut
        = some (max (min bufsize ((src.length : Int) + 1) - 1) 0)
      ∧ writtenIndices (getShaderSource c shader bufsize true).writes
        = List.range ((max (min bufsize ((src.length : Int) + 1) - 1) 0).toNat + 1)
      ∧ (∀ init i, i < (max (min bufsize ((src.length : Int) + 1) - 1) 0).toNat →
          finalBuf (getShaderSource c shader bufsize true).writes init i
            = (src ++ [0]).getD i 0)
      ∧ (∀ init, finalBuf (getShaderSource c shader bufsize true).writes init
          (max (min bufsize ((src.length : Int) + 1) - 1) 0).toNat = 0)) := by
  have hnlt : ¬ bufsize < 0 := not_lt.mpr hbuf
  have hgl : s.getInfoLog = some (log ++ [0]) := by
    simp [Shader.getInfoLog, hlog]
  have hgll : s.getInfoLogLength = (log.length : Int) + 1 := by
    simp [Shader.getInfoLogLength, hlog]
  have hgs : s.getSource = some (src ++ [0]) := by
    simp [Shader.getSource, hsrc]
  have hgsl : s.getShaderSourceLength = (src.length : Int) + 1 := by
    simp [Shader.getShaderSourceLength, hsrc]
  have hinfo : getShaderInfoLog c shader bufsize true =
      { ctx := c,
        lengthOut := some (max (min bufsize ((log.length : Int) + 1) - 1) 0),
        writes := copyWrites (log ++ [0])
          (max (min bufsize ((log.length : Int) + 1) - 1) 0) } := by
    simp only [getShaderInfoLog, if_neg hnlt, hres, hsh, hgl, hgll, if_pos]
  have hsrcq : getShaderSource c shader bufsize true =
      { ctx := c,
        lengthOut := some (max (min bufsize ((src.length : Int) + 1) - 1) 0),
        writes := copyWrites (src ++ [0])
          (max (min bufsize ((src.length : Int) + 1) - 1) 0) } := by
    simp only [getShaderSource, if_neg hnlt, hres, hsh, hgs, hgsl, if_pos]
  constructor
  · obtain ⟨hw, hf, ht⟩ := copyWrites_contract (log ++ [0])
      (max (min bufsize ((log.length : Int) + 1) - 1) 0) (le_max_right _ 0)
    rw [hinfo]
    exact ⟨rfl, hw, hf, ht⟩
  · obtain ⟨hw, hf, ht⟩ := copyWrites_contract (src ++ [0])
      (max (min bufsize ((src.length : Int) + 1) - 1) 0) (le_max_right _ 0)
    rw [hsrcq]
    exact ⟨rfl, hw, hf, ht⟩

/-- Witness for C1: in the concrete context with log `[65]` and source
`[118, 111]`, a bufsize of 2 reports length 1 for the info log, the buffer
holds byte 65 then the terminating 0, and the source query copies byte 118
then terminates. -/
theorem getShaderInfoLog_getShaderSource_contract_witness :
    (getShaderInfoLog ctxStd 1 2 true).lengthOut = some 1
    ∧ (∀ init : Nat → Nat, finalBuf (getShaderInfoLog ctxStd 1 2 true).writes init 0 = 65)
    ∧ (∀ init : Nat → Nat, finalBuf (getShaderInfoLog ctxStd 1 2 true).writes init 1 = 0)
    ∧ (∀ init : Nat → Nat, finalBuf (getShaderSource ctxStd 1 2 true).writes init 0 = 118) := by
  obtain ⟨⟨hl1, hw1, hf1, ht1⟩, ⟨hl2, hw2, hf2, ht2⟩⟩ :=
    getShaderInfoLog_getShaderSource_contract ctxStd 1 2 1 shaderStd [65] [118, 111]
      (by decide) (by decide) rfl rfl (by decide)
  refine ⟨?_, ?_, ?_, ?_⟩
  · rw [hl1]
    decide
  · intro init
    have := hf1 init 0 (by decide)
    simpa using this
  · intro init
    have := ht1 init
    simpa using this
  · intro init
    have := hf2 init 0 (by decide)
    simpa using this

/-- C2 failing evaluation: with an existing log/source of true terminated
length 1 and `bufsize = 0`, both queries still issue two byte stores at
buffer index 0 — the `memcpy` of one byte and the explicit terminator —
writing into a zero-capacity destination buffer. -/
theorem getShaderInfoLog_writes_into_zero_sized_buffer :
    (getShaderInfoLog ctxEmptyStrings 1 0 true).writes = [(0, 0), (0, 0)]
    ∧ (getShaderSource ctxEmptyStrings 1 0 true).writes = [(0, 0), (0, 0)] := by
  decide

/-- C3 counterexample: for a valid shader with no source text and a supplied
length output, GetShaderSource leaves the length output untouched instead
of reporting 0. -/
theorem getShaderSource_missing_source_skips_length :
    (getShaderSource ctxNoStrings 1 4 true).lengthOut = none
    ∧ (getShaderSource ctxNoStrings 1 4 true).lengthOut ≠ some 0 := by
  decide

/-- C3 amended: when the queried string does not exist, both queries write
nothing into the destination buffer and leave the context unchanged;
GetShaderInfoLog reports 0 through a supplied length output, while
GetShaderSource returns without touching the length output. -/
theorem missing_string_queries_write_nothing
    (c : Context) (shader : Nat) (bufsize : Int) (lengthProvided : Bool)
    (idx : Nat) (s : Shader)
    (hres : getShaderPtr c shader = (c, some idx))
    (hsh : getShader c.rm idx = some s)
    (hbuf : 0 ≤ bufsize) :
    (s.infoLog = none →
       (getShaderInfoLog c shader bufsize lengthProvided).writes = []
       ∧ (getShaderInfoLog c shader bufsize lengthProvided).lengthOut
           = (if lengthProvided then some 0 else none)
       ∧ (getShaderInfoLog c shader bufsize lengthProvided).ctx = c)
    ∧ (s.source = none →
       (getShaderSource c shader bufsize lengthProvided).writes = []
       ∧ (getShaderSource c shader bufsize lengthProvided).lengthOut = none
       ∧ (getShaderSource c shader bufsize lengthProvided).ctx = c) := by
  have hnlt : ¬ bufsize < 0 := not_lt.mpr hbuf
  constructor
  · intro hlog
    have hgl : s.getInfoLog = none := by
      simp [Shader.getInfoLog, hlog]
    simp only [getShaderInfoLog, if_neg hnlt, hres, hsh, hgl]
    exact ⟨by trivial, by trivial, by trivial⟩
  · intro hsrc
    have hgs : s.getSource = none := by
      simp [Shader.getSource, hsrc]
    simp only [getShaderSource, if_neg hnlt, hres, hsh, hgs]
    exact ⟨by trivial, by trivial, by trivial⟩

/-- Witness for the amended C3: in the concrete context whose shader has no
strings, the info-log query reports 0 and the source query leaves the
length output untouched; neither writes a byte. -/
theorem missing_string_queries_write_nothing_witness :
    (getShaderInfoLog ctxNoStrings 1 4 true).writes = []
    ∧ (getShaderInfoLog ctxNoStrings 1 4 true).lengthOut = some 0
    ∧ (getShaderSource ctxNoStrings 1 4 true).writes = []
    ∧ (getShaderSource ctxNoStrings 1 4 true).lengthOut = none := by
  obtain ⟨hlog, hsrc⟩ := missing_string_queries_write_nothing ctxNoStrings 1 4 true 1
    { shaderStd with source := none, infoLog := none }
    (by decide) (by decide) (by decide)
  obtain ⟨hw1, hl1, _⟩ := hlog rfl
  obtain ⟨hw2, hl2, _⟩ := hsrc rfl
  exact ⟨hw1, by simpa using hl1, hw2, hl2⟩

/-- C8 failing evaluation: on a valid shader handle with `GL_COMPILE_STATUS`
and no shader-compiler support, GetShaderiv writes the compile status
through `params` and then its trailing capability check of lines 132-134
records InvalidOperation — an error is recorded although observable state
beyond the last-error slot (the caller's output) was already mutated. -/
theorem getShaderiv_records_error_after_write :
    (getShaderiv ctxNoCompiler 1 ShaderivPname.COMPILE_STATUS).paramsOut = some GL_FALSE
    ∧ (getShaderiv ctxNoCompiler 1 ShaderivPname.COMPILE_STATUS).ctx.lastError
        = GLError.InvalidOperation
    ∧ ctxNoCompiler.lastError = GLError.NoError := by
  decide

set_option maxRecDepth 4000 in
/-- C9: with compiler support and a recognized shader kind, the three float
precision types report identical results, with equal exponent range
entries derived from `floor(log2(FLT_MAX))` and precision
`-log2(FLT_EPSILON)`; the integer precision types report ranges derived
from the signed-integer maxima of short, int16_t and int32_t with
precision 0; an unrecognized selector records InvalidEnum and leaves all
three outputs unwritten. The numeric values are 127, 23, 14, 14 and 30. -/
theorem getShaderPrecisionFormat_numeric_limits (c : Context) (st : Int)
    (hsupp : c.shaderCompilerSupport = true)
    (hst : st = GL_VERTEX_SHADER ∨ st = GL_FRAGMENT_SHADER) :
    (getShaderPrecisionFormat c st PrecisionType.LOW_FLOAT
        = getShaderPrecisionFormat c st PrecisionType.MEDIUM_FLOAT
      ∧ getShaderPrecisionFormat c st PrecisionType.MEDIUM_FLOAT
        = getShaderPrecisionFormat c st PrecisionType.HIGH_FLOAT)
    ∧ getShaderPrecisionFormat c st PrecisionType.HIGH_FLOAT
        = { ctx := c, range0 := some (floorLog2 floatMaxVal : Int),
            range1 := some (floorLog2 floatMaxVal : Int),
            precisionOut := some (floatEpsNegLog2 : Int) }
    ∧ getShaderPrecisionFormat c st PrecisionType.LOW_INT
        = { ctx := c, range0 := some (floorLog2 shortMaxVal : Int),
            range1 := some (floorLog2 shortMaxVal : Int), precisionOut := some 0 }
    ∧ getShaderPrecisionFormat c st PrecisionType.MEDIUM_INT
        = { ctx := c, range0 := some (floorLog2 int16MaxVal : Int),
            range1 := some (floorLog2 int16MaxVal : Int), precisionOut := some 0 }
    ∧ getShaderPrecisionFormat c st PrecisionType.HIGH_INT
        = { ctx := c, range0 := some (floorLog2 int32MaxVal : Int),
            range1 := some (floorLog2 int32MaxVal : Int), precisionOut := some 0 }
    ∧ getShaderPrecisionFormat c st PrecisionType.OTHER
        = { ctx := recordError c GLError.InvalidEnum,
            range0 := none, range1 := none, precisionOut := none }
    ∧ floorLog2 floatMaxVal = 127 ∧ floatEpsNegLog2 = 23
    ∧ floorLog2 shortMaxVal = 14 ∧ floorLog2 int16MaxVal = 14
    ∧ floorLog2 int32MaxVal = 30 := by
  have hhsc : hasShaderCompiler c = (c, true) := by
    simp [hasShaderCompiler, hsupp]
  have hty : ¬(st ≠ GL_VERTEX_SHADER ∧ st ≠ GL_FRAGMENT_SHADER) := by
    rcases hst with hv | hv <;> simp [hv]
  refine ⟨⟨?_, ?_⟩, ?_, ?_, ?_, ?_, ?_, ?_, ?_, ?_, ?_, ?_⟩
  · simp only [getShaderPrecisionFormat, hhsc, if_neg hty]
  · simp only [getShaderPrecisionFormat, hhsc, if_neg hty]
  · simp only [getShaderPrecisionFormat, hhsc, if_neg hty]
  · simp only [getShaderPrecisionFormat, hhsc, if_neg hty]
  · simp only [getShaderPrecisionFormat, hhsc, if_neg hty]
  · simp only [getShaderPrecisionFormat, hhsc, if_neg hty]
  · simp only [getShaderPrecisionFormat, hhsc, if_neg hty]
  · decide
  · decide
  · decide
  · decide
  · decide

/-- Witness for C9: concrete evaluation in the standard context with the
vertex-shader enumerant: HIGH_INT reports range 30 with precision 0, and
an unrecognized selector records InvalidEnum. -/
theorem getShaderPrecisionFormat_numeric_limits_witness :
    (getShaderPrecisionFormat ctxStd GL_VERTEX_SHADER PrecisionType.HIGH_INT).range0
        = some 30
    ∧ (getShaderPrecisionFormat ctxStd GL_VERTEX_SHADER PrecisionType.OTHER).ctx.lastError
        = GLError.InvalidEnum := by
  obtain ⟨_, _, _, _, hhi, hoth, _, _, _, _, h30⟩ :=
    getShaderPrecisionFormat_numeric_limits ctxStd GL_VERTEX_SHADER rfl (Or.inl rfl)
  constructor
  · rw [hhi]
    simp [h30]
  · rw [hoth]
    rfl

@[simp] lemma setShader_shadingObjects (rm : ResourceManager) (idx : Nat) (s : Shader) :
    (setShader rm idx s).shadingObjects = rm.shadingObjects := rfl

@[simp] lemma setShader_count (rm : ResourceManager) (idx : Nat) (s : Shader) :
    (setShader rm idx s).shadingObjectCount = rm.shadingObjectCount := rfl

@[simp] lemma setShader_purgeList (rm : ResourceManager) (idx : Nat) (s : Shader) :
    (setShader rm idx s).purgeList = rm.purgeList := rfl

@[simp] lemma addToPurgeList_shadingObjects (rm : ResourceManager) (idx : Nat) :
    (addToPurgeList rm idx).shadingObjects = rm.shadingObjects := by
  unfold addToPurgeList
  split <;> rfl

@[simp] lemma addToPurgeList_shaders (rm : ResourceManager) (idx : Nat) :
    (addToPurgeList rm idx).shaders = rm.shaders := by
  unfold addToPurgeList
  split <;> rfl

@[simp] lemma addToPurgeList_count (rm : ResourceManager) (idx : Nat) :
    (addToPurgeList rm idx).shadingObjectCount = rm.shadingObjectCount := by
  unfold addToPurgeList
  split <;> rfl

@[simp] lemma eraseShadingObject_shaders (rm : ResourceManager) (h : Nat) :
    (eraseShadingObject rm h).shaders = rm.shaders := rfl

@[simp] lemma eraseShadingObject_count (rm : ResourceManager) (h : Nat) :
    (eraseShadingObject rm h).shadingObjectCount = rm.shadingObjectCount := rfl

@[simp] lemma eraseShadingObject_purgeList (rm : ResourceManager) (h : Nat) :
    (eraseShadingObject rm h).purgeList = rm.purgeList := rfl

@[simp] lemma deallocateShader_shadingObjects (rm : ResourceManager) (idx : Nat) :
    (deallocateShader rm idx).shadingObjects = rm.shadingObjects := rfl

@[simp] lemma deallocateShader_count (rm : ResourceManager) (idx : Nat) :
    (deallocateShader rm idx).shadingObjectCount = rm.shadingObjectCount := rfl

@[simp] lemma deallocateShader_purgeList (rm : ResourceManager) (idx : Nat) :
    (deallocateShader rm idx).purgeList = rm.purgeList := rfl

@[simp] lemma flush_rm (c : Context) : (flush c).rm = c.rm := rfl

@[simp] lemma recordError_rm (c : Context) (e : GLError) : (recordError c e).rm = c.rm := rfl

lemma mem_addToPurgeList (rm : ResourceManager) (idx : Nat) :
    idx ∈ (addToPurgeList rm idx).purgeList := by
  unfold addToPurgeList
  split
  · assumption
  · exact List.mem_cons_self _ _

lemma addToPurgeList_of_mem (rm : ResourceManager) (idx : Nat)
    (hm : idx ∈ rm.purgeList) : addToPurgeList rm idx = rm := by
  unfold addToPurgeList
  rw [if_pos hm]

lemma assocFind_map_update {α : Type} (l : List (Nat × α)) (k : Nat) (v : α)
    (h : (assocFind k l).isSome) :
    assocFind k (l.map (fun p => if p.1 = k then (p.1, v) else p)) = some v := by
  induction l with
  | nil => simp [assocFind] at h
  | cons a t ih =>
    by_cases hk : a.1 = k
    · simp [assocFind, hk]
    · have h2 : (assocFind k t).isSome := by
        simpa [assocFind, hk] using h
      simp [assocFind, hk, ih h2]

lemma map_update_idem {α : Type} (l : List (Nat × α)) (k : Nat) (v : α) :
    (l.map (fun p => if p.1 = k then (p.1, v) else p)).map
        (fun p => if p.1 = k then (p.1, v) else p)
      = l.map (fun p => if p.1 = k then (p.1, v) else p) := by
  induction l with
  | nil => rfl
  | cons a t ih =>
    by_cases hk : a.1 = k
    · simp [hk, ih]
    · simp [hk, ih]

lemma assocFind_filter_ne {α : Type} (l : List (Nat × α)) (k : Nat) :
    assocFind k (l.filter (fun p => p.1 != k)) = none := by
  induction l with
  | nil => rfl
  | cons a t ih =>
    by_cases hk : a.1 = k
    · simp [List.filter_cons, hk, ih]
    · simp [List.filter_cons, hk, assocFind, ih]

lemma purge_step_idem (rm : ResourceManager) (idx : Nat) (v : Shader) :
    addToPurgeList (setShader (addToPurgeList (setShader rm idx v) idx) idx v) idx
      = addToPurgeList (setShader rm idx v) idx := by
  set A := addToPurgeList (setShader rm idx v) idx with hA
  have hmem : idx ∈ (setShader A idx v).purgeList := by
    rw [setShader_purgeList, hA]
    exact mem_addToPurgeList _ _
  rw [addToPurgeList_of_mem _ _ hmem]
  have hsh : A.shaders.map (fun p => if p.1 = idx then (p.1, v) else p) = A.shaders := by
    rw [hA, addToPurgeList_shaders]
    exact map_update_idem rm.shaders idx v
  show setShader A idx v = A
  unfold setShader
  rw [hsh]

lemma deleteShader_unresolved (c : Context) (h : Nat) (h0 : h ≠ 0)
    (c1 : Context) (hgp : getShaderPtr c h = (c1, none)) :
    deleteShader c h = c1 := by
  simp [deleteShader, if_neg h0, hgp]

lemma deleteShader_no_storage (c : Context) (h : Nat) (h0 : h ≠ 0) (idx : Nat)
    (hgp : getShaderPtr c h = (c, some idx)) (hs : getShader c.rm idx = none) :
    deleteShader c h = c := by
  simp [deleteShader, if_neg h0, hgp, hs]

lemma deleteShader_free_rm (c : Context) (h : Nat) (h0 : h ≠ 0) (idx : Nat) (s : Shader)
    (hgp : getShaderPtr c h = (c, some idx)) (hs : getShader c.rm idx = some s)
    (hfree : s.refCount = 0) :
    (deleteShader c h).rm =
      deallocateShader (eraseShadingObject
        (setShader c.rm idx { s with markForDeletion := true }) h) idx := by
  have hf : freeForDeletion { s with markForDeletion := true } = true := by
    simp [freeForDeletion, hfree]
  simp only [deleteShader, if_neg h0, hgp, hs, hf, if_true]
  split <;> rfl

lemma deleteShader_purge_eq (c : Context) (h : Nat) (h0 : h ≠ 0) (idx : Nat) (s : Shader)
    (hgp : getShaderPtr c h = (c, some idx)) (hs : getShader c.rm idx = some s)
    (href : s.refCount ≠ 0) :
    deleteShader c h =
      { c with
        rm := addToPurgeList (setShader c.rm idx { s with markForDeletion := true }) idx } := by
  have hf : freeForDeletion { s with markForDeletion := true } = false := by
    simp [freeForDeletion, href]
  simp [deleteShader, if_neg h0, hgp, hs, hf]

/-- C5: deleting a shader that is still referenced by a live program (so not
free for deletion once marked) moves it into the purge list, leaves the
namespace entry — and hence handle resolution — intact, and keeps its
storage with the deletion mark set; conversely, a namespace entry only
ever disappears from a deletion call whose shader was free for deletion at
the moment of the request. -/
theorem deleteShader_deferred_purge
    (c : Context) (h : Nat) (e : ShadingNamespace_t) (s : Shader)
    (hl : lookupEntry c.rm h = some e) (h0 : h ≠ 0)
    (hcnt : h < c.rm.shadingObjectCount)
    (hidx : e.arrayIndex ≠ 0) (hty : e.type = ShadingObjType.SHADER_ID)
    (hs : getShader c.rm e.arrayIndex = some s)
    (href : s.refCount ≠ 0) :
    ((deleteShader c h).rm.shadingObjects = c.rm.shadingObjects
      ∧ e.arrayIndex ∈ (deleteShader c h).rm.purgeList
      ∧ getShader (deleteShader c h).rm e.arrayIndex
          = some { s with markForDeletion := true }
      ∧ getShaderPtr (deleteShader c h) h = (deleteShader c h, some e.arrayIndex))
    ∧ (∀ c2 : Context, ∀ h2 : Nat,
        lookupEntry c2.rm h2 ≠ none →
        lookupEntry (deleteShader c2 h2).rm h2 = none →
        ∃ i s2, (getShaderPtr c2 h2).2 = some i ∧ getShader c2.rm i = some s2 ∧
          freeForDeletion { s2 with markForDeletion := true } = true) := by
  constructor
  · have hgp := getShaderPtr_success c h e hl h0 hcnt hidx hty
    have hdel := deleteShader_purge_eq c h h0 e.arrayIndex s hgp hs href
    have hobj : (deleteShader c h).rm.shadingObjects = c.rm.shadingObjects := by
      rw [hdel]
      simp
    have hcnt2 : (deleteShader c h).rm.shadingObjectCount = c.rm.shadingObjectCount := by
      rw [hdel]
      simp
    refine ⟨hobj, ?_, ?_, ?_⟩
    · rw [hdel]
      exact mem_addToPurgeList _ _
    · rw [hdel]
      show assocFind e.arrayIndex
          (addToPurgeList (setShader c.rm e.arrayIndex { s with markForDeletion := true })
            e.arrayIndex).shaders = _
      rw [addToPurgeList_shaders]
      exact assocFind_map_update c.rm.shaders e.arrayIndex _ (by rw [show assocFind e.arrayIndex c.rm.shaders = some s from hs]; rfl)
    · have hl2 : lookupEntry (deleteShader c h).rm h = some e := by
        unfold lookupEntry
        rw [hobj]
        exact hl
      exact getShaderPtr_success (deleteShader c h) h e hl2 h0 (by rw [hcnt2]; exact hcnt)
        hidx hty
  · intro c2 h2 hne hgone
    by_cases h20 : h2 = 0
    · subst h20
      have : deleteShader c2 0 = c2 := by
        unfold deleteShader
        rw [if_pos rfl]
      rw [this] at hgone
      exact absurd hgone hne
    by_cases hc : h2 = 0 ∨ c2.rm.shadingObjectCount ≤ h2 ∨ lookupEntry c2.rm h2 = none
    · have hgp := getShaderPtr_invalidValue c2 h2 hc
      have hdel := deleteShader_unresolved c2 h2 h20 _ hgp
      rw [hdel] at hgone
      exact absurd hgone hne
    · push_neg at hc
      obtain ⟨_, hcnt2, hlne2⟩ := hc
      obtain ⟨e2, hl2⟩ := Option.ne_none_iff_exists'.mp hlne2
      by_cases hbad : e2.arrayIndex = 0 ∨ e2.type ≠ ShadingObjType.SHADER_ID
      · have hgp := getShaderPtr_invalidOp c2 h2 e2 hl2 h20 hcnt2 hbad
        have hdel := deleteShader_unresolved c2 h2 h20 _ hgp
        rw [hdel] at hgone
        exact absurd hgone hne
      · push_neg at hbad
        have hgp := getShaderPtr_success c2 h2 e2 hl2 h20 hcnt2 hbad.1 hbad.2
        cases hs2 : getShader c2.rm e2.arrayIndex with
        | none =>
          have hdel := deleteShader_no_storage c2 h2 h20 e2.arrayIndex hgp hs2
          rw [hdel] at hgone
          exact absurd hgone hne
        | some s2 =>
          by_cases hfree : s2.refCount = 0
          · exact ⟨e2.arrayIndex, s2, by rw [hgp], hs2, by simp [freeForDeletion, hfree]⟩
          · have hdel := deleteShader_purge_eq c2 h2 h20 e2.arrayIndex s2 hgp hs2 hfree
            rw [hdel] at hgone
            unfold lookupEntry at hgone
            simp only [addToPurgeList_shadingObjects, setShader_shadingObjects] at hgone
            have hx : lookupEntry c2.rm h2 = none := hgone
            rw [hl2] at hx
            exact Option.noConfusion hx

/-- Witness for C5: in the concrete context the shader at handle 1 is held by
one program; after DeleteShader 1 the namespace is unchanged, storage index
1 sits in the purge list, and handle 1 still resolves. -/
theorem deleteShader_deferred_purge_witness :
    (deleteShader ctxStd 1).rm.shadingObjects = ctxStd.rm.shadingObjects
    ∧ 1 ∈ (deleteShader ctxStd 1).rm.purgeList
    ∧ getShaderPtr (deleteShader ctxStd 1) 1 = (deleteShader ctxStd 1, some 1) := by
  obtain ⟨⟨hobj, hpurge, _, hres⟩, _⟩ :=
    deleteShader_deferred_purge ctxStd 1
      { type := ShadingObjType.SHADER_ID, arrayIndex := 1 } shaderStd
      (by decide) (by decide) (by decide) (by decide) (by decide) (by decide) (by decide)
  exact ⟨hobj, hpurge, hres⟩

/-- C6: DeleteShader is idempotent on the observable state named by the claim
(namespace contents, stored shaders with their flags, purge list and the
allocated range bound), and deletion of the zero handle is a silent no-op
that leaves the whole context — the last-error slot included — unchanged. -/
theorem deleteShader_idempotent_zero_noop (c : Context) (h : Nat) :
    observable (deleteShader (deleteShader c h) h) = observable (deleteShader c h)
    ∧ deleteShader c 0 = c := by
  have hzero : ∀ c0 : Context, deleteShader c0 0 = c0 := by
    intro c0
    unfold deleteShader
    rw [if_pos rfl]
  refine ⟨?_, hzero c⟩
  by_cases h0 : h = 0
  · subst h0
    rw [hzero, hzero]
  by_cases hc : h = 0 ∨ c.rm.shadingObjectCount ≤ h ∨ lookupEntry c.rm h = none
  · have hgp := getShaderPtr_invalidValue c h hc
    have hd1 := deleteShader_unresolved c h h0 _ hgp
    have hc2 : h = 0 ∨ (recordError c GLError.InvalidValue).rm.shadingObjectCount ≤ h ∨
        lookupEntry (recordError c GLError.InvalidValue).rm h = none := by
      simpa using hc
    have hgp2 := getShaderPtr_invalidValue (recordError c GLError.InvalidValue) h hc2
    have hd2 := deleteShader_unresolved (recordError c GLError.InvalidValue) h h0 _ hgp2
    rw [hd1, hd2]
    rfl
  · push_neg at hc
    obtain ⟨_, hcnt, hlne⟩ := hc
    obtain ⟨e, hl⟩ := Option.ne_none_iff_exists'.mp hlne
    by_cases hbad : e.arrayIndex = 0 ∨ e.type ≠ ShadingObjType.SHADER_ID
    · have hgp := getShaderPtr_invalidOp c h e hl h0 hcnt hbad
      have hd1 := deleteShader_unresolved c h h0 _ hgp
      have hl2 : lookupEntry (recordError c GLError.InvalidOperation).rm h = some e := hl
      have hgp2 := getShaderPtr_invalidOp (recordError c GLError.InvalidOperation) h e hl2
        h0 hcnt hbad
      have hd2 := deleteShader_unresolved (recordError c GLError.InvalidOperation) h h0 _ hgp2
      rw [hd1, hd2]
      rfl
    · push_neg at hbad
      have hgp := getShaderPtr_success c h e hl h0 hcnt hbad.1 hbad.2
      cases hs : getShader c.rm e.arrayIndex with
      | none =>
        have hd1 := deleteShader_no_storage c h h0 e.arrayIndex hgp hs
        rw [hd1, hd1]
      | some s =>
        by_cases hfree : s.refCount = 0
        · have hrm1 := deleteShader_free_rm c h h0 e.arrayIndex s hgp hs hfree
          have hl2 : lookupEntry (deleteShader c h).rm h = none := by
            unfold lookupEntry
            rw [hrm1, deallocateShader_shadingObjects]
            unfold eraseShadingObject
            exact assocFind_filter_ne _ h
          have hgp2 := getShaderPtr_invalidValue (deleteShader c h) h (Or.inr (Or.inr hl2))
          have hd2 := deleteShader_unresolved (deleteShader c h) h h0 _ hgp2
          rw [hd2]
          simp [observable]
        · have hd1 := deleteShader_purge_eq c h h0 e.arrayIndex s hgp hs hfree
          have hobj1 : (deleteShader c h).rm.shadingObjects = c.rm.shadingObjects := by
            rw [hd1]
            simp
          have hcnt1 : (deleteShader c h).rm.shadingObjectCount
              = c.rm.shadingObjectCount := by
            rw [hd1]
            simp
          have hl2 : lookupEntry (deleteShader c h).rm h = some e := by
            unfold lookupEntry
            rw [hobj1]
            exact hl
          have hgp2 := getShaderPtr_success (deleteShader c h) h e hl2 h0
            (by rw [hcnt1]; exact hcnt) hbad.1 hbad.2
          have hs2 : getShader (deleteShader c h).rm e.arrayIndex
              = some { s with markForDeletion := true } := by
            rw [hd1]
            show assocFind e.arrayIndex (addToPurgeList _ _).shaders = _
            rw [addToPurgeList_shaders, setShader]
            exact assocFind_map_update c.rm.shaders e.arrayIndex _
              (by rw [show assocFind e.arrayIndex c.rm.shaders = some s from hs]; rfl)
          have hfree2 : ({ s with markForDeletion := true } : Shader).refCount ≠ 0 := hfree
          have hd2 := deleteShader_purge_eq (deleteShader c h) h h0 e.arrayIndex
            { s with markForDeletion := true } hgp2 hs2 hfree2
          rw [hd2, hd1]
          exact congrArg (fun rmx => observable { c with rm := rmx })
            (purge_step_idem c.rm e.arrayIndex { s with markForDeletion := true })

/-- Witness for C6: concrete evaluation — deleting shader handle 1 twice in
the standard context leaves the same observable state as deleting it once,
and deleting handle 0 is the identity. -/
theorem deleteShader_idempotent_zero_noop_witness :
    observable (deleteShader (deleteShader ctxStd 1) 1) = observable (deleteShader ctxStd 1)
    ∧ deleteShader ctxStd 0 = ctxStd :=
  deleteShader_idempotent_zero_noop ctxStd 1

end GLOVE
